import Mathlib

/-!
Verification of the conditional-expression refactoring examples in
`4_simplifying_conditional_expressions.ipynb`.

Each Python example function is embedded as a total Lean function.
Python ints are `Int`, Python strings are `String`, Python floats that
take only the exact decimal values 0.8 and 1.0 (and products thereof
that are exact in double precision) are modelled as `ℚ`.  A Python
function that can return `None` by falling off the end, or fail with an
attribute error, returns an `Option`.
-/

namespace Refactorings

/-- A `person` namedtuple from the Consolidate Conditional Expression
example: fields `age`, `income`, `gender`. -/
structure Person where
  age : Int
  income : Int
  gender : String
deriving DecidableEq, Repr

/-- `bad__get_loan_limit` from the notebook: an if/elif chain returning 0
for age >= 70, income <= 1000 or gender == 'm', else 100. -/
def bad__get_loan_limit (p : Person) : Int :=
  if p.age ≥ 70 then 0
  else if p.income ≤ 1000 then 0
  else if p.gender = "m" then 0
  else 100

/-- `is_eligible_for_loan` from the notebook: the same if/elif chain,
returning False for each disqualifying branch, else True. -/
def is_eligible_for_loan (p : Person) : Bool :=
  if p.age ≥ 70 then false
  else if p.income ≤ 1000 then false
  else if p.gender = "m" then false
  else true

/-- `good__get_loan_limit` from the notebook: 100 if eligible, else 0. -/
def good__get_loan_limit (p : Person) : Int :=
  if is_eligible_for_loan p then 100 else 0

/-- The month and year fields of the `datetime` value used in the
Decompose Conditional example. -/
structure DateT where
  month : Int
  year : Int
deriving DecidableEq, Repr

/-- `check_if_date_valid` from the notebook:
`(date.month == 12) and (date.year >= 2023)`. -/
def check_if_date_valid (d : DateT) : Bool :=
  (d.month = 12) && (d.year ≥ 2023)

/-- The inline condition of the bad flow of the Decompose Conditional
example, written exactly as it appears before the refactoring. -/
def decompose_inline_condition (d : DateT) : Bool :=
  (d.month = 12) && (d.year ≥ 2023)

/-- What the bad flow prints: `date is valid` when the inline condition
holds, nothing otherwise. -/
def decompose_bad_flow_output (d : DateT) : List String :=
  if decompose_inline_condition d then ["date is valid"] else []

/-- What the good flow prints: `date is valid` when
`check_if_date_valid` holds, nothing otherwise. -/
def decompose_good_flow_output (d : DateT) : List String :=
  if check_if_date_valid d then ["date is valid"] else []

/-- The sample date `2024-12-15` parsed by `datetime.strptime`. -/
def sampleDate : DateT := { month := 12, year := 2024 }

/-- `is_discounted` from the Consolidate Duplicate Conditional Fragments
example, as a function of the value drawn by `random.randint(1,10)`:
True when the drawn value exceeds 5, else False. -/
def is_discounted (val : Int) : Bool :=
  if val > 5 then true else false

/-- `get_price` from the notebook: `base * mult`. -/
def get_price (base mult : ℚ) : ℚ :=
  base * mult

/-- The `mult` assigned by the bad flow, as a function of the outcome of
`is_discounted()`: 0.8 in the then-branch, 1.0 in the else-branch. -/
def fragments_bad_mult (d : Bool) : ℚ :=
  if d then 8/10 else 1

/-- The `price` computed by the bad flow: `get_price(10, mult)` in both
branches. -/
def fragments_bad_price (d : Bool) : ℚ :=
  if d then get_price 10 (8/10) else get_price 10 1

/-- The `mult` after the good flow: initialised to 1.0, overwritten with
0.8 when `is_discounted()` returned True. -/
def fragments_good_mult (d : Bool) : ℚ :=
  if d then 8/10 else 1

/-- The `price` computed by the good flow: `get_price(10, mult)` once,
after the conditional. -/
def fragments_good_price (d : Bool) : ℚ :=
  get_price 10 (fragments_good_mult d)

/-- The person object of the Replace Nested Conditional with Guard
Clauses example, abstracted by the boolean answers of its four
predicate methods. -/
structure LoanPerson where
  is_dead : Bool
  is_divorced : Bool
  is_retired : Bool
  is_not_working : Bool
deriving DecidableEq, Repr

/-- `bad__loan_repayment_due` from the notebook: nested conditionals;
returns None (modelled `none`) when every predicate is False. -/
def bad__loan_repayment_due (p : LoanPerson) : Option Int :=
  if p.is_dead then some 0
  else
    if p.is_divorced then some 100
    else if p.is_retired then some 100
    else if p.is_not_working then some 200
    else none

/-- `good__loan_repayment_due` from the notebook: the same checks as a
sequence of guard clauses; falls off the end (returns None) when every
predicate is False. -/
def good__loan_repayment_due (p : LoanPerson) : Option Int :=
  if p.is_dead then some 0
  else if p.is_divorced then some 100
  else if p.is_retired then some 100
  else if p.is_not_working then some 200
  else none

/-- A `Customer` instance from the Introduce Null Object example,
abstracted by its `bill` attribute. -/
structure Customer where
  bill : Int
deriving DecidableEq, Repr

/-- `Customer()`: the constructor sets `bill` to 123. -/
def Customer.new : Customer := { bill := 123 }

/-- `NullCustomer()`: the subclass constructor sets `bill` to 0. -/
def NullCustomer.new : Customer := { bill := 0 }

/-- `bad__get_bill` from the notebook: the argument may be `None`
(modelled `Option Customer`); returns 0 for None, else the bill. -/
def bad__get_bill (c : Option Customer) : Int :=
  match c with
  | none => 0
  | some c => c.bill

/-- `good__get_bill` from the notebook: unconditionally reads
`customer.bill`; on `None` the attribute access fails, modelled as
`none`. -/
def good__get_bill (c : Option Customer) : Option Int :=
  match c with
  | none => none
  | some c => some c.bill

end Refactorings

namespace Refactorings

/-- Claim C1: for every person record with integer age and income and a
string gender, `bad__get_loan_limit` returns the same value as
`good__get_loan_limit`. -/
theorem bad_good_loan_limit_agree (p : Person) :
    bad__get_loan_limit p = good__get_loan_limit p := by
  unfold bad__get_loan_limit good__get_loan_limit is_eligible_for_loan
  split_ifs <;> simp_all

/-- Claim C2: `is_eligible_for_loan` returns True iff age < 70, income >
1000 and gender is not the string m; and `good__get_loan_limit` returns
100 when eligible and 0 otherwise. -/
theorem eligibility_and_loan_limit (p : Person) :
    (is_eligible_for_loan p = true ↔
      p.age < 70 ∧ p.income > 1000 ∧ p.gender ≠ "m") ∧
    (is_eligible_for_loan p = true → good__get_loan_limit p = 100) ∧
    (is_eligible_for_loan p = false → good__get_loan_limit p = 0) := by
  refine ⟨?_, ?_, ?_⟩
  · unfold is_eligible_for_loan
    split_ifs <;> simp_all
  · intro h
    simp [good__get_loan_limit, h]
  · intro h
    simp [good__get_loan_limit, h]

/-- Claim C3: `check_if_date_valid` agrees with the inline condition of
the bad flow on every date, so both flows of the Decompose Conditional
example print the same output; at the sample date 2024-12-15 both
print `date is valid`. -/
theorem decompose_conditional_equivalent (d : DateT) :
    check_if_date_valid d = decompose_inline_condition d ∧
    decompose_bad_flow_output d = decompose_good_flow_output d ∧
    decompose_bad_flow_output sampleDate = ["date is valid"] := by
  refine ⟨rfl, ?_, by decide⟩
  unfold decompose_bad_flow_output decompose_good_flow_output
    check_if_date_valid decompose_inline_condition
  rfl

/-- Claim C4: for every assignment of booleans to the four predicate
methods, `bad__loan_repayment_due` returns the same value as
`good__loan_repayment_due`, including when all four predicates are
false. -/
theorem bad_good_loan_repayment_agree (p : LoanPerson) :
    bad__loan_repayment_due p = good__loan_repayment_due p := by
  rcases p with ⟨d, v, r, w⟩
  cases d <;> cases v <;> cases r <;> cases w <;> rfl

/-- Claim C5: for every drawn value, with d the outcome of
`is_discounted`, the bad flow and the good flow assign the same `mult`
and compute the same price via `get_price(10, mult)`: 8.0 when d is
True and 10.0 when d is False. -/
theorem duplicate_fragments_equivalent (val : Int) :
    fragments_bad_mult (is_discounted val) =
      fragments_good_mult (is_discounted val) ∧
    fragments_bad_price (is_discounted val) =
      fragments_good_price (is_discounted val) ∧
    fragments_bad_price (is_discounted val) =
      (if is_discounted val then 8 else 10) := by
  cases h : is_discounted val <;>
    simp [fragments_bad_mult, fragments_good_mult, fragments_bad_price,
      fragments_good_price, get_price] <;> norm_num

/-- Claim C6: `good__get_bill` on a NullCustomer returns 0, the value
`bad__get_bill` returns for None; and for every ordinary Customer both
functions return its bill, 123 for a fresh Customer. -/
theorem null_object_default_behavior :
    good__get_bill (some NullCustomer.new) = some 0 ∧
    bad__get_bill none = 0 ∧
    (∀ c : Customer,
      good__get_bill (some c) = some (bad__get_bill (some c)) ∧
      bad__get_bill (some c) = c.bill) ∧
    bad__get_bill (some Customer.new) = 123 := by
  refine ⟨rfl, rfl, fun c => ⟨rfl, rfl⟩, rfl⟩

/-- Claim C7: every example function terminates on every input: each is
embedded as a total function, so for every input there is a value the
function returns. -/
theorem all_example_functions_terminate :
    (∀ d : DateT, ∃ b : Bool, check_if_date_valid d = b) ∧
    (∀ p : Person, ∃ n : Int, bad__get_loan_limit p = n) ∧
    (∀ p : Person, ∃ b : Bool, is_eligible_for_loan p = b) ∧
    (∀ p : Person, ∃ n : Int, good__get_loan_limit p = n) ∧
    (∀ v : Int, ∃ b : Bool, is_discounted v = b) ∧
    (∀ b m : ℚ, ∃ q : ℚ, get_price b m = q) ∧
    (∀ p : LoanPerson, ∃ r : Option Int, bad__loan_repayment_due p = r) ∧
    (∀ p : LoanPerson, ∃ r : Option Int, good__loan_repayment_due p = r) ∧
    (∀ c : Option Customer, ∃ n : Int, bad__get_bill c = n) ∧
    (∀ c : Option Customer, ∃ r : Option Int, good__get_bill c = r) := by
  refine ⟨fun d => ⟨_, rfl⟩, fun p => ⟨_, rfl⟩, fun p => ⟨_, rfl⟩,
    fun p => ⟨_, rfl⟩, fun v => ⟨_, rfl⟩, fun b m => ⟨_, rfl⟩,
    fun p => ⟨_, rfl⟩, fun p => ⟨_, rfl⟩, fun c => ⟨_, rfl⟩,
    fun c => ⟨_, rfl⟩⟩

/-- Claim C8: on inputs of the demonstrated kind each example function
returns normally with no reachable error branch; in particular
`good__get_bill`, the only fallible embedding, succeeds on every
non-None customer, and every other function is total on its whole
domain. -/
theorem no_error_on_demonstrated_inputs :
    (∀ c : Customer, good__get_bill (some c) = some c.bill) ∧
    (∀ c : Customer, (good__get_bill (some c)).isSome = true) ∧
    (∀ d : DateT, ∃ b : Bool, check_if_date_valid d = b) ∧
    (∀ p : Person, ∃ n : Int, good__get_loan_limit p = n) ∧
    (∀ p : LoanPerson, ∃ r : Option Int, good__loan_repayment_due p = r) := by
  refine ⟨fun c => rfl, fun c => rfl, fun d => ⟨_, rfl⟩,
    fun p => ⟨_, rfl⟩, fun p => ⟨_, rfl⟩⟩

/-- Claim C9: the Introduce Null Object pair is not equivalent at None:
`bad__get_bill` returns 0 there while `good__get_bill` fails; on any
actual customer instance the two agree. -/
theorem null_object_pair_not_equivalent_at_none :
    bad__get_bill none = 0 ∧
    good__get_bill none = none ∧
    (∀ c : Customer,
      good__get_bill (some c) = some (bad__get_bill (some c))) := by
  exact ⟨rfl, rfl, fun c => rfl⟩

/-- Claim C10: when all four predicates return False, both
`bad__loan_repayment_due` and `good__loan_repayment_due` return None
rather than an amount. -/
theorem loan_repayment_none_when_all_false (p : LoanPerson)
    (h : p.is_dead = false ∧ p.is_divorced = false ∧
         p.is_retired = false ∧ p.is_not_working = false) :
    bad__loan_repayment_due p = none ∧
    good__loan_repayment_due p = none := by
  obtain ⟨h1, h2, h3, h4⟩ := h
  constructor <;>
    simp [bad__loan_repayment_due, good__loan_repayment_due, h1, h2, h3, h4]

/-- Witness for C10 at the all-false person. -/
theorem loan_repayment_none_when_all_false_witness :
    bad__loan_repayment_due ⟨false, false, false, false⟩ = none ∧
    good__loan_repayment_due ⟨false, false, false, false⟩ = none :=
  loan_repayment_none_when_all_false ⟨false, false, false, false⟩
    ⟨rfl, rfl, rfl, rfl⟩

end Refactorings
